import Mathlib

/-!
Verification development for the code-visualizer analysis core.

The development shallowly embeds the two analysis components of the
repository:

* the Structural Graph Extractor (`TypeScriptAnalyzer` in
  `src/app/code/_utils/analyze2.ts`), and
* the Handler Dependency Analyzer (`analyzeHandler`, `determineCallType`,
  `analyzeMethodComplexity` in the handler-analysis module).

The TypeScript sources operate on the TypeScript compiler AST.  The parser
is an external collaborator, so the embedding starts from an already parsed
tree: the inductive type `Ast` mirrors the node kinds the analyzers
dispatch on (declarations, call expressions, control-flow statements and a
generic fallback), with textual payloads (names, parameter texts, callee
texts) carried as strings, exactly the data the analyzers read via
`getText()`.

JavaScript string methods (`startsWith`, `includes`, `endsWith`,
`split('.')`) are modelled by executable functions over the character list
of a string, because only those operations of the runtime are used by the
analyzed code.
-/

/-! ## Model of the JavaScript string methods used by the sources -/

/-- Prefix test on character lists: `listIsLeadingSeq p l` holds when `p`
is an initial segment of `l`.  Model of `String.prototype.startsWith`. -/
def listIsLeadingSeq : List Char → List Char → Bool
  | [], _ => true
  | _ :: _, [] => false
  | p :: ps, c :: cs => p == c && listIsLeadingSeq ps cs

/-- Contiguous-subsequence test on character lists.  Model of
`String.prototype.includes`. -/
def listContainsSeq (p : List Char) (l : List Char) : Bool :=
  listIsLeadingSeq p l ||
    match l with
    | [] => false
    | _ :: rest => listContainsSeq p rest

/-- `s.startsWith(p)` of JavaScript. -/
def jsStartsWith (s p : String) : Bool := listIsLeadingSeq p.data s.data

/-- `s.includes(p)` of JavaScript. -/
def jsIncludes (s p : String) : Bool := listContainsSeq p.data s.data

/-- `s.endsWith(p)` of JavaScript. -/
def jsEndsWith (s p : String) : Bool :=
  listIsLeadingSeq p.data.reverse s.data.reverse

/-- `s.split('.')` of JavaScript on the character list of `s`: splits at
every dot; always returns at least one (possibly empty) group. -/
def splitDot : List Char → List (List Char)
  | [] => [[]]
  | c :: rest =>
    match splitDot rest with
    | [] => [[]]
    | g :: gs => if c == '.' then [] :: g :: gs else (c :: g) :: gs

/-! ## The abstract syntax tree

`Ast` mirrors the part of the TypeScript AST taxonomy the two analyzers
dispatch on.  Node kinds that none of the analyzed functions inspect are
collapsed into `stmt` (a statement of any other kind, e.g. an expression
or return statement) and `other` (a non-statement node).  Child nodes that
the analyzers never treat specially (condition expressions of an `if`,
loop headers, call arguments, ...) are carried as plain child lists; every
traversal in the sources reaches them through `ts.forEachChild` /
`getChildren`, which enumerate exactly these children in source order. -/

/-- One heritage clause of a class or interface declaration: the
extends/implements discriminator (`clause.token === ExtendsKeyword`) and
the rendered texts of the referenced base types (`type.expression.getText()`).
The type references themselves carry no further structure that any
analyzed function reads. -/
structure HeritageClause where
  isExtends : Bool
  types : List String
deriving DecidableEq, Repr

/-- One constructor parameter: the rendered parameter name
(`param.name.getText()`) and the rendered type annotation
(`param.type?.getText()`), absent when the parameter is untyped. -/
structure CtorParam where
  nameText : String
  typeText : Option String
deriving DecidableEq, Repr

/-- The embedded abstract syntax tree. -/
inductive Ast where
  /-- `FunctionDeclaration`: optional name (text of the name identifier),
  rendered parameter texts, optional rendered return-type annotation,
  optional body. -/
  | functionDecl (name : Option String) (params : List String)
      (retType : Option String) (body : Option Ast)
  /-- `ClassDeclaration`: optional name, heritage clauses, member list
  (method declarations, a constructor declaration, other members). -/
  | classDecl (name : Option String) (heritage : List HeritageClause)
      (members : List Ast)
  /-- `MethodDeclaration` (a class member): name text, modifier texts and
  an optional body (absent for overload signatures / abstract methods). -/
  | methodDecl (name : String) (modifiers : List String) (body : Option Ast)
  /-- `ConstructorDeclaration` (a class member): parameters and optional
  body. -/
  | ctorDecl (params : List CtorParam) (body : Option Ast)
  /-- `InterfaceDeclaration`: name and heritage clauses. -/
  | interfaceDecl (name : String) (heritage : List HeritageClause)
  /-- `CallExpression`: the rendered callee text
  (`node.expression.getText()`) and the argument expressions. -/
  | callExpr (calleeText : String) (args : List Ast)
  /-- `IfStatement` with its children (condition, branches). -/
  | ifStmt (children : List Ast)
  /-- `ForStatement` with its children. -/
  | forStmt (children : List Ast)
  /-- `WhileStatement` with its children. -/
  | whileStmt (children : List Ast)
  /-- `DoStatement` with its children. -/
  | doStmt (children : List Ast)
  /-- `CaseClause` with its children. -/
  | caseClause (children : List Ast)
  /-- `ConditionalExpression` with its children. -/
  | condExpr (children : List Ast)
  /-- `Block` with its statements. -/
  | block (children : List Ast)
  /-- Any other statement kind (expression statement, return, variable
  statement, ...) with its children. -/
  | stmt (children : List Ast)
  /-- Any other non-statement node (source file, expressions, ...) with
  its children. -/
  | other (children : List Ast)
deriving Repr

/-! ## Structural Graph Extractor (`analyze2.ts`) -/

/-- The `data` payload of a graph node: `{ label, details? }`. -/
structure CodeNodeData where
  label : String
  details : Option String
deriving DecidableEq, Repr

/-- A layout position `{ x, y }`. -/
structure NodePosition where
  x : Nat
  y : Nat
deriving DecidableEq, Repr

/-- A graph node produced by the extractor (`CodeNode` in the source):
`type` is one of `"function" | "class" | "interface" | "call"`. -/
structure CodeNode where
  id : String
  type : String
  data : CodeNodeData
  position : NodePosition
deriving DecidableEq, Repr

/-- A graph edge (`CodeEdge` in the source): `type` is one of
`"default" | "calls" | "implements" | "extends"`. -/
structure CodeEdge where
  id : String
  source : String
  target : String
  type : String
deriving DecidableEq, Repr

/-- The analyzer output (`AnalyzerResult` in the source). -/
structure AnalyzerResult where
  nodes : List CodeNode
  edges : List CodeEdge
deriving DecidableEq, Repr

/-- An entry of the identity index (`VisitedNode` in the source). -/
structure VisitedNode where
  id : String
  name : String
  type : String
deriving DecidableEq, Repr

/-- The mutable per-instance fields of `TypeScriptAnalyzer`, made an
explicit state value. -/
structure AnalyzerState where
  nodes : List CodeNode
  edges : List CodeEdge
  visitedNodes : List VisitedNode
  nodeCounter : Nat
  currentX : Nat
  currentY : Nat
deriving DecidableEq, Repr

/-- The field initializers of a fresh `TypeScriptAnalyzer` instance. -/
def initState : AnalyzerState :=
  { nodes := [], edges := [], visitedNodes := [],
    nodeCounter := 0, currentX := 0, currentY := 0 }

/-- The `packagesToIgnore` list of the source, verbatim. -/
def packagesToIgnore : List String :=
  ["console", "logger", "supabase", "dayjs", "moment", "axios", "fetch",
   "localStorage", "JSON", "Object", "supabaseAdmin", "Math", "Date",
   "Error", "map", "from", "to", "Array", "Set", "Map", "Promise",
   "pg_execute"]

/-- The regular expression test `/^[a-z].*\..*/.test(functionName)`: the
first character is an ASCII lowercase letter and a literal dot occurs
later, with no line terminator between the first character and that dot
(a regex `.` does not match a line terminator). -/
def matchesLowercaseDotPattern (functionName : String) : Bool :=
  match functionName.data with
  | [] => false
  | c :: rest =>
    ('a' ≤ c && c ≤ 'z') &&
      (rest.takeWhile (fun d => d != '\n')).contains '.'

/-- `isExternalPackageCall` of the source: a prefix match against
`packagesToIgnore`, or the "likely package" syntactic pattern
(lowercase-then-dot shape, or a leading `$`, or a leading `_`). -/
def isExternalPackageCall (functionName : String) : Bool :=
  packagesToIgnore.any (fun packageName => jsStartsWith functionName packageName) ||
    (matchesLowercaseDotPattern functionName ||
      jsStartsWith functionName "$" ||
      jsStartsWith functionName "_")

/-- `createNodeId` of the source: increments the counter and renders
`node-${counter}`; returns the id together with the new counter value. -/
def createNodeId (nodeCounter : Nat) : String × Nat :=
  ("node-" ++ toString (nodeCounter + 1), nodeCounter + 1)

/-- `findVisitedNode` of the source: first identity-index entry with the
given name and node type. -/
def findVisitedNode (visitedNodes : List VisitedNode) (name type_ : String) :
    Option VisitedNode :=
  visitedNodes.find? (fun node => node.name == name && node.type == type_)

/-- `addNode` of the source: reuse the node id recorded for `(name, type)`
when present; otherwise mint a fresh id, append the node (placed at the
current layout cursor) and the identity-index entry, and advance the
cursor (`y += 100`, wrapping to `y = 0, x += 250` once `y > 500`). -/
def addNode (type_ name : String) (details : Option String)
    (s : AnalyzerState) : String × AnalyzerState :=
  match findVisitedNode s.visitedNodes name type_ with
  | some existingNode => (existingNode.id, s)
  | none =>
    let r := createNodeId s.nodeCounter
    let node : CodeNode :=
      { id := r.1, type := type_,
        data := { label := name, details := details },
        position := { x := s.currentX, y := s.currentY } }
    let newY := s.currentY + 100
    (r.1,
      { nodes := s.nodes ++ [node],
        edges := s.edges,
        visitedNodes := s.visitedNodes ++ [{ id := r.1, name := name, type := type_ }],
        nodeCounter := r.2,
        currentX := if newY > 500 then s.currentX + 250 else s.currentX,
        currentY := if newY > 500 then 0 else newY })

/-- `addEdge` of the source: always appends, with the edge id derived from
the endpoint ids as `edge-${source}-${target}`. -/
def addEdge (source target type_ : String) (s : AnalyzerState) : AnalyzerState :=
  { s with
    edges := s.edges ++
      [{ id := "edge-" ++ source ++ "-" ++ target,
         source := source, target := target, type := type_ }] }

/-- The label of a function declaration node:
`node.name?.getText().split('.')[1] || 'anonymous'` (element 1 of the
dot-split of the name text, with `undefined` and the empty string both
falling back to `"anonymous"`). -/
def functionLabel : Option String → String
  | none => "anonymous"
  | some nameText =>
    match (splitDot nameText.data).get? 1 with
    | none => "anonymous"
    | some seg => if seg.isEmpty then "anonymous" else String.mk seg

/-- The label of a class node: `node.name?.getText() || 'anonymous'`. -/
def classLabel : Option String → String
  | none => "anonymous"
  | some nameText => if nameText.isEmpty then "anonymous" else nameText

/-- The `details` string of a function node: the joined parameter texts in
parentheses followed by the rendered return-type annotation if present. -/
def renderFunctionDetails (params : List String) (retType : Option String) : String :=
  "(" ++ String.intercalate ", " params ++ ")" ++
    (match retType with
     | some t => ": " ++ t
     | none => "")

mutual

/-- The call-discovery walker `visitCallExpression` defined inside
`analyzeFunctionBody`: on a call expression whose callee is classified
external it returns at once (skipping the callee's arguments as well);
otherwise it reuses an existing `(calleeText, "function")` node or adds a
`"call"` node, emits a `calls` edge from the enclosing function's node,
and recurses into all children. -/
def visitCallExpression (functionNodeId : String) : Ast → AnalyzerState → AnalyzerState
  | .callExpr calledFunction args, s =>
    if isExternalPackageCall calledFunction then s
    else
      let s1 :=
        match findVisitedNode s.visitedNodes calledFunction "function" with
        | some existingNode => addEdge functionNodeId existingNode.id "calls" s
        | none =>
          let r := addNode "call" calledFunction none s
          addEdge functionNodeId r.1 "calls" r.2
      visitCallList functionNodeId args s1
  | .functionDecl _ _ _ body, s => visitCallOpt functionNodeId body s
  | .classDecl _ _ members, s => visitCallList functionNodeId members s
  | .methodDecl _ _ body, s => visitCallOpt functionNodeId body s
  | .ctorDecl _ body, s => visitCallOpt functionNodeId body s
  | .interfaceDecl _ _, s => s
  | .ifStmt children, s => visitCallList functionNodeId children s
  | .forStmt children, s => visitCallList functionNodeId children s
  | .whileStmt children, s => visitCallList functionNodeId children s
  | .doStmt children, s => visitCallList functionNodeId children s
  | .caseClause children, s => visitCallList functionNodeId children s
  | .condExpr children, s => visitCallList functionNodeId children s
  | .block children, s => visitCallList functionNodeId children s
  | .stmt children, s => visitCallList functionNodeId children s
  | .other children, s => visitCallList functionNodeId children s

/-- `ts.forEachChild(node, visitCallExpression)` over a child list. -/
def visitCallList (functionNodeId : String) : List Ast → AnalyzerState → AnalyzerState
  | [], s => s
  | c :: cs, s => visitCallList functionNodeId cs (visitCallExpression functionNodeId c s)

/-- Call discovery over an optional child (absent bodies are skipped). -/
def visitCallOpt (functionNodeId : String) : Option Ast → AnalyzerState → AnalyzerState
  | none, s => s
  | some b, s => visitCallExpression functionNodeId b s

end

/-- `analyzeFunctionBody` of the source: runs the call-discovery walker on
a function or method body, attaching edges to `functionNodeId`. -/
def analyzeFunctionBody (body : Ast) (functionNodeId : String)
    (s : AnalyzerState) : AnalyzerState :=
  visitCallExpression functionNodeId body s

/-- The per-heritage-type step of `visitNode`: create/reuse the node for
one referenced base name and emit the heritage edge. -/
def visitHeritageType (nodeId kind edgeType : String)
    (s : AnalyzerState) (baseName : String) : AnalyzerState :=
  let r := addNode kind baseName none s
  addEdge nodeId r.1 edgeType r.2

/-- The per-member step of `visitNode`'s class handling: a method member
gets a `"function"` node, a membership (`default`) edge from the class,
and call discovery over its body; other members are skipped. -/
def visitClassMember (classNodeId : String) (s : AnalyzerState) (m : Ast) : AnalyzerState :=
  match m with
  | .methodDecl methodName _ body =>
    let r := addNode "function" methodName none s
    let s2 := addEdge classNodeId r.1 "default" r.2
    (match body with
     | some b => analyzeFunctionBody b r.1 s2
     | none => s2)
  | _ => s

mutual

/-- `visitNode` of the source: dispatches on function, class and interface
declarations, then recurses into all child nodes via `ts.forEachChild`. -/
def visitNode : Ast → AnalyzerState → AnalyzerState
  | .functionDecl name params retType body, s =>
    let details := renderFunctionDetails params retType
    let r := addNode "function" (functionLabel name) (some details) s
    let s2 :=
      match body with
      | some b => analyzeFunctionBody b r.1 r.2
      | none => r.2
    visitOpt body s2
  | .classDecl name heritage members, s =>
    let r := addNode "class" (classLabel name) none s
    let s2 := heritage.foldl
      (fun acc clause => clause.types.foldl
        (visitHeritageType r.1 "class"
          (if clause.isExtends then "extends" else "implements")) acc) r.2
    let s3 := members.foldl (visitClassMember r.1) s2
    visitList members s3
  | .interfaceDecl name heritage, s =>
    let r := addNode "interface" name none s
    heritage.foldl
      (fun acc clause => clause.types.foldl
        (visitHeritageType r.1 "interface" "extends") acc) r.2
  | .methodDecl _ _ body, s => visitOpt body s
  | .ctorDecl _ body, s => visitOpt body s
  | .callExpr _ args, s => visitList args s
  | .ifStmt children, s => visitList children s
  | .forStmt children, s => visitList children s
  | .whileStmt children, s => visitList children s
  | .doStmt children, s => visitList children s
  | .caseClause children, s => visitList children s
  | .condExpr children, s => visitList children s
  | .block children, s => visitList children s
  | .stmt children, s => visitList children s
  | .other children, s => visitList children s

/-- `ts.forEachChild(node, child => this.visitNode(child))` over a child
list. -/
def visitList : List Ast → AnalyzerState → AnalyzerState
  | [], s => s
  | c :: cs, s => visitList cs (visitNode c s)

/-- Traversal over an optional child. -/
def visitOpt : Option Ast → AnalyzerState → AnalyzerState
  | none, s => s
  | some b, s => visitNode b s

end

/-- The state after the six field assignments at the top of `analyze`:
every per-instance field is reset. -/
def resetState (_prev : AnalyzerState) : AnalyzerState :=
  { nodes := [], edges := [], visitedNodes := [],
    nodeCounter := 0, currentX := 0, currentY := 0 }

/-- `analyze` of the source.  Parsing (`ts.createSourceFile`) is the
external parser, so the embedding receives the parsed tree directly; the
instance's previous field values are the explicit `prev` argument, reset
before traversal exactly as the source resets them. -/
def analyze (prev : AnalyzerState) (sourceFile : Ast) : AnalyzerResult :=
  let s := visitNode sourceFile (resetState prev)
  { nodes := s.nodes, edges := s.edges }

example :
    analyze initState
      (.functionDecl (some "foo") [] none none) =
    { nodes := [{ id := "node-1", type := "function",
                  data := { label := "anonymous", details := some "()" },
                  position := { x := 0, y := 0 } }],
      edges := [] } := by decide

/-! ## Handler Dependency Analyzer -/

/-- One database dependency as `analyzeConstructor` records it:
`{ name, actions }`. -/
structure DbDependencyRaw where
  name : String
  actions : List String
deriving DecidableEq, Repr

/-- One database dependency as stored in the handler node:
`{ table, actions }`. -/
structure DbDependency where
  table : String
  actions : List String
deriving DecidableEq, Repr

/-- One external-system dependency: `{ type: "api" | "queue", name,
endpoints? }`. -/
structure ExternalDependency where
  type : String
  name : String
  endpoints : Option (List String)
deriving DecidableEq, Repr

/-- The dependency record returned by `analyzeConstructor`. -/
structure ConstructorDeps where
  services : List String
  databases : List DbDependencyRaw
  external : List ExternalDependency
deriving DecidableEq, Repr

/-- The `dependencies` payload of a handler node. -/
structure HandlerDeps where
  services : List String
  databases : List DbDependency
  external : List ExternalDependency
deriving DecidableEq, Repr

/-- The `data` payload of a handler node. -/
structure HandlerData where
  handler : String
  method : String
  dependencies : HandlerDeps
deriving DecidableEq, Repr

/-- The node returned by `analyzeHandler` (a `reactflow` `Node` with
`type: "handler"`, a default `{0, 0}` position and the handler data). -/
structure HandlerNode where
  id : String
  type : String
  x : Nat
  y : Nat
  data : HandlerData
deriving DecidableEq, Repr

/-- `analyzeConstructor` of the source: a parameter whose rendered type
ends in `"Service"` is a service dependency; otherwise a type containing
`"Database"` is a database dependency named after the parameter, with all
four actions; untyped parameters contribute nothing, and no external
dependency is ever recorded here. -/
def analyzeConstructor (params : List CtorParam) : ConstructorDeps :=
  params.foldl
    (fun deps param =>
      match param.typeText with
      | none => deps
      | some type_ =>
        if jsEndsWith type_ "Service" then
          { deps with services := deps.services ++ [type_] }
        else if jsIncludes type_ "Database" then
          { deps with databases := deps.databases ++
              [{ name := param.nameText,
                 actions := ["SELECT", "INSERT", "UPDATE", "DELETE"] }] }
        else deps)
    { services := [], databases := [], external := [] }

/-- Whether a class member is a constructor declaration
(`ts.isConstructorDeclaration`). -/
def isCtorMember : Ast → Bool
  | .ctorDecl _ _ => true
  | _ => false

/-- The handler data built once the first class declaration is found:
`handler` is `node.name?.text || ""`; the dependencies come from the
constructor member when one exists (the `db.actions || [...]` fallback in
the source is dead, `analyzeConstructor` always sets `actions`), and the
initial empty dependency lists otherwise; `method` is overwritten by each
method member in order, so the last method's name (or the initial `""`)
remains. -/
def buildHandlerData (name : Option String) (members : List Ast) : HandlerData :=
  let handlerName :=
    match name with
    | none => ""
    | some t => t
  let deps :=
    match members.find? isCtorMember with
    | some (.ctorDecl params _) =>
      let raw := analyzeConstructor params
      { services := raw.services,
        databases := raw.databases.map
          (fun db => { table := db.name, actions := db.actions }),
        external := raw.external }
    | _ => { services := [], databases := [], external := [] }
  let methodName := members.foldl
    (fun acc m =>
      match m with
      | .methodDecl n _ _ => n
      | _ => acc)
    ""
  { handler := handlerName, method := methodName, dependencies := deps }

/-- The handler node assembled by `analyzeHandler`: `crypto.randomUUID()`
is a fresh random identifier drawn from the runtime, modelled as the
explicit argument `generatedId`; the position defaults to `(0, 0)`. -/
def mkHandlerNode (generatedId : String) (name : Option String)
    (members : List Ast) : HandlerNode :=
  { id := generatedId, type := "handler", x := 0, y := 0,
    data := buildHandlerData name members }

mutual

/-- The recursive `visit` of `analyzeHandler`: a class declaration is
analyzed and returned immediately (wrapped in a singleton list); any other
node forwards the first non-null result among its children. -/
def handlerVisit (generatedId : String) : Ast → Option (List HandlerNode)
  | .classDecl name _ members => some [mkHandlerNode generatedId name members]
  | .functionDecl _ _ _ body => handlerVisitOpt generatedId body
  | .methodDecl _ _ body => handlerVisitOpt generatedId body
  | .ctorDecl _ body => handlerVisitOpt generatedId body
  | .interfaceDecl _ _ => none
  | .callExpr _ args => handlerVisitList generatedId args
  | .ifStmt children => handlerVisitList generatedId children
  | .forStmt children => handlerVisitList generatedId children
  | .whileStmt children => handlerVisitList generatedId children
  | .doStmt children => handlerVisitList generatedId children
  | .caseClause children => handlerVisitList generatedId children
  | .condExpr children => handlerVisitList generatedId children
  | .block children => handlerVisitList generatedId children
  | .stmt children => handlerVisitList generatedId children
  | .other children => handlerVisitList generatedId children

/-- The child loop of `visit`: return the first non-null child result. -/
def handlerVisitList (generatedId : String) : List Ast → Option (List HandlerNode)
  | [] => none
  | c :: cs =>
    match handlerVisit generatedId c with
    | some result => some result
    | none => handlerVisitList generatedId cs

/-- The child loop over an optional child. -/
def handlerVisitOpt (generatedId : String) : Option Ast → Option (List HandlerNode)
  | none => none
  | some b => handlerVisit generatedId b

end

/-- `analyzeHandler` of the source: run `visit` from the source-file root;
`generatedId` is the `crypto.randomUUID()` value drawn for this call. -/
def analyzeHandler (generatedId : String) (sourceFile : Ast) :
    Option (List HandlerNode) :=
  handlerVisit generatedId sourceFile

/-- `determineCallType` of the source: a strict if/else-if cascade over
case-sensitive `includes` tests — database names first, then api, queue,
service, utility, and `"unknown"` as the fallback. -/
def determineCallType (target : String) : String :=
  if jsIncludes target "supabaseAdmin" || jsIncludes target "pg_execute" ||
      jsIncludes target "repository" || jsIncludes target "dao" then
    "database"
  else if jsIncludes target "axios" || jsIncludes target "fetch" ||
      jsIncludes target "http" || jsIncludes target "request" then
    "api"
  else if jsIncludes target "Queue" || jsIncludes target "queue" ||
      jsIncludes target "EventHandler" then
    "queue"
  else if jsIncludes target "Service" || jsIncludes target "Client" then
    "service"
  else if jsIncludes target "logger" || jsIncludes target "this.slack" then
    "utility"
  else
    "unknown"

/-! ## Method complexity (`analyzeMethodComplexity`) -/

/-- The metrics record returned by `analyzeMethodComplexity`. -/
structure ComplexityMetrics where
  cyclomaticComplexity : Nat
  numberOfStatements : Nat
  depth : Nat
deriving DecidableEq, Repr

/-- The four mutable counters of `analyzeMethodComplexity`. -/
structure ComplexityState where
  complexity : Nat
  statements : Nat
  maxDepth : Nat
  currentDepth : Nat
deriving DecidableEq, Repr

/-- The control-flow kinds that increment cyclomatic complexity
(If / For / While / Do / CaseClause / ConditionalExpression). -/
def isComplexityNode : Ast → Bool
  | .ifStmt _ => true
  | .forStmt _ => true
  | .whileStmt _ => true
  | .doStmt _ => true
  | .caseClause _ => true
  | .condExpr _ => true
  | _ => false

/-- The kinds that the nesting-depth tracking enters and leaves
(Block / If / For / While). -/
def isDepthNode : Ast → Bool
  | .block _ => true
  | .ifStmt _ => true
  | .forStmt _ => true
  | .whileStmt _ => true
  | _ => false

/-- The statement count's `ts.isStatement(node) && !ts.isBlock(node)`:
statement kinds (including declaration statements) other than blocks. -/
def countsAsStatement : Ast → Bool
  | .ifStmt _ => true
  | .forStmt _ => true
  | .whileStmt _ => true
  | .doStmt _ => true
  | .stmt _ => true
  | .functionDecl _ _ _ _ => true
  | .classDecl _ _ _ => true
  | .interfaceDecl _ _ => true
  | _ => false

/-- The updates `visit` performs on a node before recursing into its
children: complexity, then depth (increment and running maximum), then the
statement count. -/
def complexityEnter (a : Ast) (cs : ComplexityState) : ComplexityState :=
  let cs1 :=
    if isComplexityNode a then { cs with complexity := cs.complexity + 1 } else cs
  let cs2 :=
    if isDepthNode a then
      { cs1 with currentDepth := cs1.currentDepth + 1,
                 maxDepth := max cs1.maxDepth (cs1.currentDepth + 1) }
    else cs1
  if countsAsStatement a then { cs2 with statements := cs2.statements + 1 } else cs2

/-- The update after the children: leaving a depth-tracked node restores
the previous nesting depth. -/
def complexityLeave (a : Ast) (cs : ComplexityState) : ComplexityState :=
  if isDepthNode a then { cs with currentDepth := cs.currentDepth - 1 } else cs

mutual

/-- The single-pass `visit` of `analyzeMethodComplexity`. -/
def complexityVisit : Ast → ComplexityState → ComplexityState
  | a@(.functionDecl _ _ _ body), cs =>
    complexityLeave a (complexityVisitOpt body (complexityEnter a cs))
  | a@(.classDecl _ _ members), cs =>
    complexityLeave a (complexityVisitList members (complexityEnter a cs))
  | a@(.methodDecl _ _ body), cs =>
    complexityLeave a (complexityVisitOpt body (complexityEnter a cs))
  | a@(.ctorDecl _ body), cs =>
    complexityLeave a (complexityVisitOpt body (complexityEnter a cs))
  | a@(.interfaceDecl _ _), cs => complexityLeave a (complexityEnter a cs)
  | a@(.callExpr _ args), cs =>
    complexityLeave a (complexityVisitList args (complexityEnter a cs))
  | a@(.ifStmt children), cs =>
    complexityLeave a (complexityVisitList children (complexityEnter a cs))
  | a@(.forStmt children), cs =>
    complexityLeave a (complexityVisitList children (complexityEnter a cs))
  | a@(.whileStmt children), cs =>
    complexityLeave a (complexityVisitList children (complexityEnter a cs))
  | a@(.doStmt children), cs =>
    complexityLeave a (complexityVisitList children (complexityEnter a cs))
  | a@(.caseClause children), cs =>
    complexityLeave a (complexityVisitList children (complexityEnter a cs))
  | a@(.condExpr children), cs =>
    complexityLeave a (complexityVisitList children (complexityEnter a cs))
  | a@(.block children), cs =>
    complexityLeave a (complexityVisitList children (complexityEnter a cs))
  | a@(.stmt children), cs =>
    complexityLeave a (complexityVisitList children (complexityEnter a cs))
  | a@(.other children), cs =>
    complexityLeave a (complexityVisitList children (complexityEnter a cs))

/-- `ts.forEachChild(node, visit)` over a child list. -/
def complexityVisitList : List Ast → ComplexityState → ComplexityState
  | [], cs => cs
  | c :: rest, cs => complexityVisitList rest (complexityVisit c cs)

/-- `ts.forEachChild` over an optional child. -/
def complexityVisitOpt : Option Ast → ComplexityState → ComplexityState
  | none, cs => cs
  | some b, cs => complexityVisit b cs

end

/-- `analyzeMethodComplexity` of the source.  The source runs
`visit(node.body!)` on a method declaration: when the body is present the
walk starts from counters `(1, 0, 0, 0)` and the metrics are returned;
when the body is absent the non-null assertion is violated and the first
`node.kind` access inside `visit` throws a `TypeError`, modelled as
`none`.  Any non-method argument is outside the source's declared input
type and is also mapped to `none`. -/
def analyzeMethodComplexity : Ast → Option ComplexityMetrics
  | .methodDecl _ _ (some body) =>
    let final := complexityVisit body
      { complexity := 1, statements := 0, maxDepth := 0, currentDepth := 0 }
    some { cyclomaticComplexity := final.complexity,
           numberOfStatements := final.statements,
           depth := final.maxDepth }
  | _ => none

example : determineCallType "dbQueueClient" = "queue" := by decide
example : determineCallType "repositoryQueue" = "database" := by decide
example : determineCallType "axiosClient" = "api" := by decide
example :
    analyzeHandler "uuid-1" (.other [.classDecl none [] []]) =
    some [{ id := "uuid-1", type := "handler", x := 0, y := 0,
            data := { handler := "", method := "",
                      dependencies := { services := [], databases := [],
                                        external := [] } } }] := by decide
example :
    analyzeMethodComplexity (.methodDecl "process" [] none) = none := by decide
example :
    analyzeMethodComplexity (.methodDecl "process" [] (some (.block [.stmt []]))) =
    some { cyclomaticComplexity := 1, numberOfStatements := 1, depth := 1 } := by
  decide

/-! ## Specification-side vocabulary

The following definitions formalize the spec's wording ("first
ClassDeclaration encountered in top-down depth-first order", "contains no
ClassDeclaration", the call-type pattern groups) independently of the
recursive early-return shape of the source, so that the source functions
can be compared against them. -/

/-- Whether a node is a class declaration. -/
def isClassDeclNode : Ast → Bool
  | .classDecl _ _ _ => true
  | _ => false

/-- The name payload of a class declaration (and `none` on any other
node). -/
def classDeclName : Ast → Option String
  | .classDecl name _ _ => name
  | _ => none

mutual

/-- Modelled from the spec: the top-down depth-first (pre-order) listing
of all nodes of a tree, in the child order the source traversals use. -/
def preorder : Ast → List Ast
  | a@(.functionDecl _ _ _ body) => a :: preorderOpt body
  | a@(.classDecl _ _ members) => a :: preorderList members
  | a@(.methodDecl _ _ body) => a :: preorderOpt body
  | a@(.ctorDecl _ body) => a :: preorderOpt body
  | a@(.interfaceDecl _ _) => [a]
  | a@(.callExpr _ args) => a :: preorderList args
  | a@(.ifStmt children) => a :: preorderList children
  | a@(.forStmt children) => a :: preorderList children
  | a@(.whileStmt children) => a :: preorderList children
  | a@(.doStmt children) => a :: preorderList children
  | a@(.caseClause children) => a :: preorderList children
  | a@(.condExpr children) => a :: preorderList children
  | a@(.block children) => a :: preorderList children
  | a@(.stmt children) => a :: preorderList children
  | a@(.other children) => a :: preorderList children

/-- Pre-order listing of a forest. -/
def preorderList : List Ast → List Ast
  | [] => []
  | c :: cs => preorder c ++ preorderList cs

/-- Pre-order listing below an optional child. -/
def preorderOpt : Option Ast → List Ast
  | none => []
  | some b => preorder b

end

/-- Modelled from the spec: the first class declaration in top-down
depth-first order. -/
def firstClassDecl (a : Ast) : Option Ast :=
  (preorder a).find? isClassDeclNode

/-- Modelled from the spec: whether the tree contains a class declaration
anywhere. -/
def containsClassDecl (a : Ast) : Bool :=
  (preorder a).any isClassDeclNode

/-- The handler node `analyzeHandler` would build from a given class
declaration node (junk on non-class nodes, on which it is never used). -/
def mkHandlerNodeFromClass (generatedId : String) : Ast → HandlerNode
  | .classDecl name _ members => mkHandlerNode generatedId name members
  | _ => { id := generatedId, type := "handler", x := 0, y := 0,
           data := { handler := "", method := "",
                     dependencies := { services := [], databases := [],
                                       external := [] } } }

/-- A handler node with the randomly generated `id` field removed; the
remaining fields are the deterministic part of `analyzeHandler`'s
output. -/
def handlerNodeNoId (n : HandlerNode) : String × Nat × Nat × HandlerData :=
  (n.type, n.x, n.y, n.data)

/-- The database pattern group of `determineCallType`. -/
def dbPatternHit (target : String) : Bool :=
  jsIncludes target "supabaseAdmin" || jsIncludes target "pg_execute" ||
    jsIncludes target "repository" || jsIncludes target "dao"

/-- The api pattern group of `determineCallType`. -/
def apiPatternHit (target : String) : Bool :=
  jsIncludes target "axios" || jsIncludes target "fetch" ||
    jsIncludes target "http" || jsIncludes target "request"

/-- The queue pattern group of `determineCallType`. -/
def queuePatternHit (target : String) : Bool :=
  jsIncludes target "Queue" || jsIncludes target "queue" ||
    jsIncludes target "EventHandler"

/-- The service pattern group of `determineCallType`. -/
def servicePatternHit (target : String) : Bool :=
  jsIncludes target "Service" || jsIncludes target "Client"

/-- The utility pattern group of `determineCallType`. -/
def utilityPatternHit (target : String) : Bool :=
  jsIncludes target "logger" || jsIncludes target "this.slack"

/-! ## Identity-index invariant

`addNode` keeps `nodes` and `visitedNodes` in lockstep: the node list's
`(label, type)` keys coincide positionally with the identity index's
`(name, type)` keys, and those keys are pairwise distinct.  Every state
mutation of the extractor goes through `addNode`/`addEdge`, so the
invariant propagates through the whole traversal. -/

/-- The identity key of a graph node. -/
def nodeKey (n : CodeNode) : String × String := (n.data.label, n.type)

/-- The identity key of an index entry. -/
def visitedKey (v : VisitedNode) : String × String := (v.name, v.type)

/-- The identity-index invariant. -/
def indexInv (s : AnalyzerState) : Prop :=
  s.nodes.map nodeKey = s.visitedNodes.map visitedKey ∧
    (s.visitedNodes.map visitedKey).Nodup

theorem indexInv_init : indexInv initState := by
  constructor <;> simp [initState]

theorem findVisitedNode_eq_none {visited : List VisitedNode} {name type_ : String}
    (h : findVisitedNode visited name type_ = none) :
    (name, type_) ∉ visited.map visitedKey := by
  intro hmem
  rcases List.mem_map.mp hmem with ⟨v, hv, hkey⟩
  have hfalse := List.find?_eq_none.mp h v hv
  simp [visitedKey] at hkey
  simp [hkey.1, hkey.2] at hfalse

theorem addNode_indexInv {s : AnalyzerState} (type_ name : String)
    (details : Option String) (h : indexInv s) :
    indexInv (addNode type_ name details s).2 := by
  unfold addNode
  cases hfind : findVisitedNode s.visitedNodes name type_ with
  | some existingNode => exact h
  | none =>
    obtain ⟨hmap, hnodup⟩ := h
    constructor
    · simp [nodeKey, visitedKey, hmap]
    · rw [List.map_append, List.nodup_append]
      refine ⟨hnodup, by simp, ?_⟩
      intro key hkey hkey'
      simp [visitedKey] at hkey'
      subst hkey'
      exact findVisitedNode_eq_none hfind hkey

theorem addEdge_nodes (source target type_ : String) (s : AnalyzerState) :
    (addEdge source target type_ s).nodes = s.nodes := rfl

theorem addEdge_visitedNodes (source target type_ : String) (s : AnalyzerState) :
    (addEdge source target type_ s).visitedNodes = s.visitedNodes := rfl

theorem addEdge_indexInv {s : AnalyzerState} (source target type_ : String)
    (h : indexInv s) : indexInv (addEdge source target type_ s) := h

/-- A fold preserves a state predicate when every step does. -/
theorem foldl_preserves {α β : Type} {P : β → Prop} {f : β → α → β}
    (hstep : ∀ b a, P b → P (f b a)) :
    ∀ (l : List α) (b : β), P b → P (l.foldl f b) := by
  intro l
  induction l with
  | nil => intro b hb; exact hb
  | cons a rest ih => intro b hb; exact ih (f b a) (hstep b a hb)

mutual

theorem visitCallExpression_indexInv (functionNodeId : String) (a : Ast)
    (s : AnalyzerState) (h : indexInv s) :
    indexInv (visitCallExpression functionNodeId a s) := by
  cases a with
  | callExpr calledFunction args =>
    rw [visitCallExpression]
    by_cases hext : isExternalPackageCall calledFunction = true
    · simp only [hext, if_true]; exact h
    · simp only [hext, if_false]
      cases hfind : findVisitedNode s.visitedNodes calledFunction "function" with
      | some existingNode =>
        simp only
        exact visitCallList_indexInv functionNodeId args _
          (addEdge_indexInv _ _ _ h)
      | none =>
        simp only
        exact visitCallList_indexInv functionNodeId args _
          (addEdge_indexInv _ _ _ (addNode_indexInv _ _ _ h))
  | functionDecl name params retType body =>
    rw [visitCallExpression]; exact visitCallOpt_indexInv functionNodeId body s h
  | classDecl name heritage members =>
    rw [visitCallExpression]; exact visitCallList_indexInv functionNodeId members s h
  | methodDecl name modifiers body =>
    rw [visitCallExpression]; exact visitCallOpt_indexInv functionNodeId body s h
  | ctorDecl params body =>
    rw [visitCallExpression]; exact visitCallOpt_indexInv functionNodeId body s h
  | interfaceDecl name heritage => rw [visitCallExpression]; exact h
  | ifStmt children =>
    rw [visitCallExpression]; exact visitCallList_indexInv functionNodeId children s h
  | forStmt children =>
    rw [visitCallExpression]; exact visitCallList_indexInv functionNodeId children s h
  | whileStmt children =>
    rw [visitCallExpression]; exact visitCallList_indexInv functionNodeId children s h
  | doStmt children =>
    rw [visitCallExpression]; exact visitCallList_indexInv functionNodeId children s h
  | caseClause children =>
    rw [visitCallExpression]; exact visitCallList_indexInv functionNodeId children s h
  | condExpr children =>
    rw [visitCallExpression]; exact visitCallList_indexInv functionNodeId children s h
  | block children =>
    rw [visitCallExpression]; exact visitCallList_indexInv functionNodeId children s h
  | stmt children =>
    rw [visitCallExpression]; exact visitCallList_indexInv functionNodeId children s h
  | other children =>
    rw [visitCallExpression]; exact visitCallList_indexInv functionNodeId children s h

theorem visitCallList_indexInv (functionNodeId : String) (l : List Ast)
    (s : AnalyzerState) (h : indexInv s) :
    indexInv (visitCallList functionNodeId l s) := by
  cases l with
  | nil => rw [visitCallList]; exact h
  | cons c cs =>
    rw [visitCallList]
    exact visitCallList_indexInv functionNodeId cs _
      (visitCallExpression_indexInv functionNodeId c s h)

theorem visitCallOpt_indexInv (functionNodeId : String) (o : Option Ast)
    (s : AnalyzerState) (h : indexInv s) :
    indexInv (visitCallOpt functionNodeId o s) := by
  cases o with
  | none => rw [visitCallOpt]; exact h
  | some b =>
    rw [visitCallOpt]; exact visitCallExpression_indexInv functionNodeId b s h

end

theorem analyzeFunctionBody_indexInv {s : AnalyzerState} (body : Ast)
    (functionNodeId : String) (h : indexInv s) :
    indexInv (analyzeFunctionBody body functionNodeId s) :=
  visitCallExpression_indexInv functionNodeId body s h

theorem visitHeritageType_indexInv {s : AnalyzerState}
    (nodeId kind edgeType baseName : String) (h : indexInv s) :
    indexInv (visitHeritageType nodeId kind edgeType s baseName) :=
  addEdge_indexInv _ _ _ (addNode_indexInv _ _ _ h)

theorem visitClassMember_indexInv {s : AnalyzerState} (classNodeId : String)
    (m : Ast) (h : indexInv s) : indexInv (visitClassMember classNodeId s m) := by
  cases m with
  | methodDecl methodName modifiers body =>
    simp only [visitClassMember]
    cases body with
    | none => exact addEdge_indexInv _ _ _ (addNode_indexInv _ _ _ h)
    | some b =>
      exact analyzeFunctionBody_indexInv b _
        (addEdge_indexInv _ _ _ (addNode_indexInv _ _ _ h))
  | functionDecl name params retType body => exact h
  | classDecl name heritage members => exact h
  | ctorDecl params body => exact h
  | interfaceDecl name heritage => exact h
  | callExpr calleeText args => exact h
  | ifStmt children => exact h
  | forStmt children => exact h
  | whileStmt children => exact h
  | doStmt children => exact h
  | caseClause children => exact h
  | condExpr children => exact h
  | block children => exact h
  | stmt children => exact h
  | other children => exact h

theorem heritageFold_indexInv {s : AnalyzerState} (nodeId kind : String)
    (edgeTypeOf : HeritageClause → String) (heritage : List HeritageClause)
    (h : indexInv s) :
    indexInv (heritage.foldl
      (fun acc clause => clause.types.foldl
        (visitHeritageType nodeId kind (edgeTypeOf clause)) acc) s) := by
  refine foldl_preserves ?_ heritage s h
  intro b clause hb
  exact foldl_preserves
    (fun b2 t hb2 => visitHeritageType_indexInv nodeId kind (edgeTypeOf clause) t hb2)
    clause.types b hb

mutual

theorem visitNode_indexInv (a : Ast) (s : AnalyzerState) (h : indexInv s) :
    indexInv (visitNode a s) := by
  cases a with
  | functionDecl name params retType body =>
    simp only [visitNode]
    cases body with
    | none => exact visitOpt_indexInv none _ (addNode_indexInv _ _ _ h)
    | some b =>
      exact visitOpt_indexInv (some b) _
        (analyzeFunctionBody_indexInv b _ (addNode_indexInv _ _ _ h))
  | classDecl name heritage members =>
    simp only [visitNode]
    exact visitList_indexInv members _
      (foldl_preserves (fun b m hb => visitClassMember_indexInv _ m hb) members _
        (heritageFold_indexInv _ "class"
          (fun clause => if clause.isExtends then "extends" else "implements")
          heritage (addNode_indexInv _ _ _ h)))
  | interfaceDecl name heritage =>
    simp only [visitNode]
    exact heritageFold_indexInv _ "interface" (fun _ => "extends") heritage
      (addNode_indexInv _ _ _ h)
  | methodDecl name modifiers body =>
    simp only [visitNode]; exact visitOpt_indexInv body s h
  | ctorDecl params body => simp only [visitNode]; exact visitOpt_indexInv body s h
  | callExpr calleeText args => simp only [visitNode]; exact visitList_indexInv args s h
  | ifStmt children => simp only [visitNode]; exact visitList_indexInv children s h
  | forStmt children => simp only [visitNode]; exact visitList_indexInv children s h
  | whileStmt children => simp only [visitNode]; exact visitList_indexInv children s h
  | doStmt children => simp only [visitNode]; exact visitList_indexInv children s h
  | caseClause children => simp only [visitNode]; exact visitList_indexInv children s h
  | condExpr children => simp only [visitNode]; exact visitList_indexInv children s h
  | block children => simp only [visitNode]; exact visitList_indexInv children s h
  | stmt children => simp only [visitNode]; exact visitList_indexInv children s h
  | other children => simp only [visitNode]; exact visitList_indexInv children s h

theorem visitList_indexInv (l : List Ast) (s : AnalyzerState) (h : indexInv s) :
    indexInv (visitList l s) := by
  cases l with
  | nil => simp only [visitList]; exact h
  | cons c cs =>
    simp only [visitList]
    exact visitList_indexInv cs _ (visitNode_indexInv c s h)

theorem visitOpt_indexInv (o : Option Ast) (s : AnalyzerState) (h : indexInv s) :
    indexInv (visitOpt o s) := by
  cases o with
  | none => simp only [visitOpt]; exact h
  | some b => simp only [visitOpt]; exact visitNode_indexInv b s h

end

/-- The node list of any full `analyze` run has pairwise distinct
`(label, type)` keys. -/
theorem analyze_nodes_nodup (prev : AnalyzerState) (sourceFile : Ast) :
    ((analyze prev sourceFile).nodes.map nodeKey).Nodup := by
  have h := visitNode_indexInv sourceFile (resetState prev) indexInv_init
  obtain ⟨hmap, hnodup⟩ := h
  show ((visitNode sourceFile (resetState prev)).nodes.map nodeKey).Nodup
  rw [hmap]
  exact hnodup

/-! ## Refinement of `analyzeHandler` to the pre-order specification -/

mutual

theorem handlerVisit_eq_find (u : String) (a : Ast) :
    handlerVisit u a =
      ((preorder a).find? isClassDeclNode).map
        (fun cls => [mkHandlerNodeFromClass u cls]) := by
  cases a with
  | classDecl name heritage members =>
    simp only [handlerVisit, preorder]
    rw [List.find?_cons_of_pos _ (by simp [isClassDeclNode])]
    simp [mkHandlerNodeFromClass]
  | functionDecl name params retType body =>
    simp only [handlerVisit, preorder]
    rw [List.find?_cons_of_neg _ (by simp [isClassDeclNode])]
    exact handlerVisitOpt_eq_find u body
  | methodDecl name modifiers body =>
    simp only [handlerVisit, preorder]
    rw [List.find?_cons_of_neg _ (by simp [isClassDeclNode])]
    exact handlerVisitOpt_eq_find u body
  | ctorDecl params body =>
    simp only [handlerVisit, preorder]
    rw [List.find?_cons_of_neg _ (by simp [isClassDeclNode])]
    exact handlerVisitOpt_eq_find u body
  | interfaceDecl name heritage =>
    simp only [handlerVisit, preorder]
    rw [List.find?_cons_of_neg _ (by simp [isClassDeclNode])]
    simp [List.find?]
  | callExpr calleeText args =>
    simp only [handlerVisit, preorder]
    rw [List.find?_cons_of_neg _ (by simp [isClassDeclNode])]
    exact handlerVisitList_eq_find u args
  | ifStmt children =>
    simp only [handlerVisit, preorder]
    rw [List.find?_cons_of_neg _ (by simp [isClassDeclNode])]
    exact handlerVisitList_eq_find u children
  | forStmt children =>
    simp only [handlerVisit, preorder]
    rw [List.find?_cons_of_neg _ (by simp [isClassDeclNode])]
    exact handlerVisitList_eq_find u children
  | whileStmt children =>
    simp only [handlerVisit, preorder]
    rw [List.find?_cons_of_neg _ (by simp [isClassDeclNode])]
    exact handlerVisitList_eq_find u children
  | doStmt children =>
    simp only [handlerVisit, preorder]
    rw [List.find?_cons_of_neg _ (by simp [isClassDeclNode])]
    exact handlerVisitList_eq_find u children
  | caseClause children =>
    simp only [handlerVisit, preorder]
    rw [List.find?_cons_of_neg _ (by simp [isClassDeclNode])]
    exact handlerVisitList_eq_find u children
  | condExpr children =>
    simp only [handlerVisit, preorder]
    rw [List.find?_cons_of_neg _ (by simp [isClassDeclNode])]
    exact handlerVisitList_eq_find u children
  | block children =>
    simp only [handlerVisit, preorder]
    rw [List.find?_cons_of_neg _ (by simp [isClassDeclNode])]
    exact handlerVisitList_eq_find u children
  | stmt children =>
    simp only [handlerVisit, preorder]
    rw [List.find?_cons_of_neg _ (by simp [isClassDeclNode])]
    exact handlerVisitList_eq_find u children
  | other children =>
    simp only [handlerVisit, preorder]
    rw [List.find?_cons_of_neg _ (by simp [isClassDeclNode])]
    exact handlerVisitList_eq_find u children

theorem handlerVisitList_eq_find (u : String) (l : List Ast) :
    handlerVisitList u l =
      ((preorderList l).find? isClassDeclNode).map
        (fun cls => [mkHandlerNodeFromClass u cls]) := by
  cases l with
  | nil => simp [handlerVisitList, preorderList]
  | cons c cs =>
    simp only [handlerVisitList, preorderList]
    rw [List.find?_append, handlerVisit_eq_find u c]
    cases hc : (preorder c).find? isClassDeclNode with
    | some cls => simp
    | none => simp [handlerVisitList_eq_find u cs]

theorem handlerVisitOpt_eq_find (u : String) (o : Option Ast) :
    handlerVisitOpt u o =
      ((preorderOpt o).find? isClassDeclNode).map
        (fun cls => [mkHandlerNodeFromClass u cls]) := by
  cases o with
  | none => simp [handlerVisitOpt, preorderOpt]
  | some b => simp only [handlerVisitOpt, preorderOpt]; exact handlerVisit_eq_find u b

end

/-- `analyzeHandler` returns exactly the descriptor of the first class
declaration in pre-order, when one exists. -/
theorem analyzeHandler_eq_firstClassDecl (u : String) (sourceFile : Ast) :
    analyzeHandler u sourceFile =
      (firstClassDecl sourceFile).map (fun cls => [mkHandlerNodeFromClass u cls]) :=
  handlerVisit_eq_find u sourceFile

/-- `analyzeHandler` returns `none` exactly when the tree has no class
declaration. -/
theorem analyzeHandler_none_iff (u : String) (sourceFile : Ast) :
    analyzeHandler u sourceFile = none ↔ containsClassDecl sourceFile = false := by
  rw [analyzeHandler_eq_firstClassDecl]
  simp [firstClassDecl, containsClassDecl, List.find?_eq_none, List.any_eq_false]

/-! ## The claims -/

/-- C1: the claim says a Function node's label equals the function's name
(or `"anonymous"` only when the declaration is unnamed).  The code instead
computes `node.name?.getText().split('.')[1] || 'anonymous'`; a function
name is a dot-free identifier, so element 1 of the split is undefined and
the label of the named declaration `function foo` is `"anonymous"`, not
`"foo"` — the name extraction is a slip and the claim describes the
intent.  This theorem evaluates the embedded code at the failing input. -/
theorem C1_function_label_bug :
    functionLabel (some "foo") = "anonymous" ∧
    (analyze initState (.functionDecl (some "foo") [] none none)).nodes.map
      (fun n => n.data.label) = ["anonymous"] := by
  constructor <;> decide

/-- C2 counterexample: the claim's example target `"dbQueueClient"`
matches none of `determineCallType`'s database patterns (`supabaseAdmin`,
`pg_execute`, `repository`, `dao` — `"db"` is not among them) but does
contain `"Queue"`, so it classifies as `"queue"`, not `"database"`. -/
theorem C2_counterexample :
    determineCallType "dbQueueClient" = "queue" ∧
    determineCallType "dbQueueClient" ≠ "database" := by
  constructor <;> decide

/-- C2 (amended): `determineCallType` checks its category patterns in
strict priority order database → api → queue → service → utility →
unknown and the first matching group wins; a target matching both a
database pattern and a queue substring (e.g. `"repositoryQueue"`)
classifies as `"database"`.  (The claim's own example `"dbQueueClient"`
matches no database pattern of this function and classifies as
`"queue"`.) -/
theorem C2_call_type_priority :
    (∀ target, dbPatternHit target = true →
      determineCallType target = "database") ∧
    (∀ target, dbPatternHit target = false → apiPatternHit target = true →
      determineCallType target = "api") ∧
    (∀ target, dbPatternHit target = false → apiPatternHit target = false →
      queuePatternHit target = true → determineCallType target = "queue") ∧
    (∀ target, dbPatternHit target = false → apiPatternHit target = false →
      queuePatternHit target = false → servicePatternHit target = true →
      determineCallType target = "service") ∧
    (∀ target, dbPatternHit target = false → apiPatternHit target = false →
      queuePatternHit target = false → servicePatternHit target = false →
      utilityPatternHit target = true → determineCallType target = "utility") ∧
    (∀ target, dbPatternHit target = false → apiPatternHit target = false →
      queuePatternHit target = false → servicePatternHit target = false →
      utilityPatternHit target = false → determineCallType target = "unknown") ∧
    determineCallType "repositoryQueue" = "database" := by
  refine ⟨?_, ?_, ?_, ?_, ?_, ?_, by decide⟩
  · intro target h
    simp only [dbPatternHit] at h
    simp [determineCallType, h]
  · intro target h1 h2
    simp only [dbPatternHit] at h1
    simp only [apiPatternHit] at h2
    simp [determineCallType, h1, h2]
  · intro target h1 h2 h3
    simp only [dbPatternHit] at h1
    simp only [apiPatternHit] at h2
    simp only [queuePatternHit] at h3
    simp [determineCallType, h1, h2, h3]
  · intro target h1 h2 h3 h4
    simp only [dbPatternHit] at h1
    simp only [apiPatternHit] at h2
    simp only [queuePatternHit] at h3
    simp only [servicePatternHit] at h4
    simp [determineCallType, h1, h2, h3, h4]
  · intro target h1 h2 h3 h4 h5
    simp only [dbPatternHit] at h1
    simp only [apiPatternHit] at h2
    simp only [queuePatternHit] at h3
    simp only [servicePatternHit] at h4
    simp only [utilityPatternHit] at h5
    simp [determineCallType, h1, h2, h3, h4, h5]
  · intro target h1 h2 h3 h4 h5
    simp only [dbPatternHit] at h1
    simp only [apiPatternHit] at h2
    simp only [queuePatternHit] at h3
    simp only [servicePatternHit] at h4
    simp only [utilityPatternHit] at h5
    simp [determineCallType, h1, h2, h3, h4, h5]

/-- C2 witness: the priority cascade evaluated at concrete targets, one
per category. -/
theorem C2_call_type_priority_witness :
    determineCallType "daoHelper" = "database" ∧
    determineCallType "httpHelper" = "api" ∧
    determineCallType "jobQueue" = "queue" ∧
    determineCallType "PaymentClient" = "service" ∧
    determineCallType "logger" = "utility" ∧
    determineCallType "foo" = "unknown" :=
  ⟨C2_call_type_priority.1 "daoHelper" (by decide),
   C2_call_type_priority.2.1 "httpHelper" (by decide) (by decide),
   C2_call_type_priority.2.2.1 "jobQueue" (by decide) (by decide) (by decide),
   C2_call_type_priority.2.2.2.1 "PaymentClient" (by decide) (by decide)
     (by decide) (by decide),
   C2_call_type_priority.2.2.2.2.1 "logger" (by decide) (by decide) (by decide)
     (by decide) (by decide),
   C2_call_type_priority.2.2.2.2.2.1 "foo" (by decide) (by decide) (by decide)
     (by decide) (by decide)⟩

/-- C3 counterexample: the claim predicts that a call whose callee text is
`"myService.process"` produces a node and a `calls` edge.  In the code the
callee starts with a lowercase letter and contains a dot, so the
"likely external package" pattern of `isExternalPackageCall` matches and
the call is dropped: a function whose body contains exactly the two calls
`console.log(...)` and `myService.process(...)` yields only the function's
own node and no edge at all. -/
theorem C3_counterexample :
    isExternalPackageCall "myService.process" = true ∧
    analyze initState
      (.functionDecl (some "f") [] none (some (.block
        [.stmt [.callExpr "console.log" []],
         .stmt [.callExpr "myService.process" []]]))) =
    { nodes := [{ id := "node-1", type := "function",
                  data := { label := "anonymous", details := some "()" },
                  position := { x := 0, y := 0 } }],
      edges := [] } := by
  constructor <;> decide

/-- C3 (amended): a call `console.log(x)` produces no node and no edge
(ignore-list prefix match), and a call whose callee matches neither the
ignore-list prefixes nor the lowercase-dot / `$` / `_` patterns — e.g.
`MyService.process(x)`, whose first letter is uppercase — produces a node
and a `calls` edge; `myService.process(x)` is likewise dropped because it
matches the lowercase-dot pattern. -/
theorem C3_external_filtering :
    isExternalPackageCall "console.log" = true ∧
    isExternalPackageCall "MyService.process" = false ∧
    analyze initState
      (.functionDecl (some "f") [] none (some (.block
        [.stmt [.callExpr "console.log" []],
         .stmt [.callExpr "MyService.process" []]]))) =
    { nodes := [{ id := "node-1", type := "function",
                  data := { label := "anonymous", details := some "()" },
                  position := { x := 0, y := 0 } },
                { id := "node-2", type := "call",
                  data := { label := "MyService.process", details := none },
                  position := { x := 0, y := 100 } }],
      edges := [{ id := "edge-node-1-node-2", source := "node-1",
                  target := "node-2", type := "calls" }] } := by
  refine ⟨by decide, by decide, by decide⟩

/-- C4: `addNode` returns the previously assigned node id unchanged when
the `(name, kind)` pair is already in the identity index, and the node
list of any full `analyze` run never contains two nodes with equal
`(label, kind)`. -/
theorem C4_node_identity :
    (∀ (s : AnalyzerState) (type_ name : String) (details : Option String)
        (v : VisitedNode),
        findVisitedNode s.visitedNodes name type_ = some v →
        addNode type_ name details s = (v.id, s)) ∧
    (∀ (prev : AnalyzerState) (sourceFile : Ast),
        ((analyze prev sourceFile).nodes.map
          (fun n => (n.data.label, n.type))).Nodup) := by
  constructor
  · intro s type_ name details v h
    simp [addNode, h]
  · intro prev sourceFile
    exact analyze_nodes_nodup prev sourceFile

/-- C4 witness: a state whose index already holds `("foo", "function")`
makes `addNode` return the recorded id without touching the state. -/
theorem C4_node_identity_witness :
    findVisitedNode
      [{ id := "node-1", name := "foo", type := "function" }] "foo" "function" =
      some { id := "node-1", name := "foo", type := "function" } ∧
    addNode "function" "foo" none
      { nodes := [], edges := [], visitedNodes :=
          [{ id := "node-1", name := "foo", type := "function" }],
        nodeCounter := 1, currentX := 0, currentY := 100 } =
      ("node-1",
       { nodes := [], edges := [], visitedNodes :=
           [{ id := "node-1", name := "foo", type := "function" }],
         nodeCounter := 1, currentX := 0, currentY := 100 }) :=
  ⟨by decide,
   C4_node_identity.1
     { nodes := [], edges := [], visitedNodes :=
         [{ id := "node-1", name := "foo", type := "function" }],
       nodeCounter := 1, currentX := 0, currentY := 100 }
     "function" "foo" none
     { id := "node-1", name := "foo", type := "function" } (by decide)⟩

/-- C5: `addEdge` always appends one edge whose id is derived from the
endpoints as `edge-${source}-${target}` (no deduplication), and a method
body with two calls to the same function yields exactly two `calls` edges
between the same node pair with identical derived ids. -/
theorem C5_edge_append_no_dedup :
    (∀ (s : AnalyzerState) (source target type_ : String),
        (addEdge source target type_ s).edges =
          s.edges ++ [{ id := "edge-" ++ source ++ "-" ++ target,
                        source := source, target := target, type := type_ }]) ∧
    (analyze initState
        (.classDecl (some "A") []
          [.methodDecl "m" [] (some (.block
            [.stmt [.callExpr "helper" []],
             .stmt [.callExpr "helper" []]]))])).edges.filter
        (fun e => e.type == "calls") =
      [{ id := "edge-node-2-node-3", source := "node-2", target := "node-3",
         type := "calls" },
       { id := "edge-node-2-node-3", source := "node-2", target := "node-3",
         type := "calls" }] := by
  refine ⟨fun s source target type_ => rfl, by decide⟩

/-- C6: the layout cursor starts at `(0, 0)`; a newly created node takes
the current cursor position, after which `y` grows by 100, resetting to 0
with `x` advanced by 250 once it would exceed 500; seven successive fresh
nodes therefore receive y-coordinates `0,100,200,300,400,500,0`, the
seventh with `x` advanced by 250 over the first six. -/
theorem C6_layout_cursor :
    (∀ (s : AnalyzerState) (type_ name : String) (details : Option String),
        findVisitedNode s.visitedNodes name type_ = none →
        (addNode type_ name details s).2.nodes.map
            (fun n => (n.position.x, n.position.y)) =
          s.nodes.map (fun n => (n.position.x, n.position.y)) ++
            [(s.currentX, s.currentY)] ∧
        (addNode type_ name details s).2.currentY =
          (if s.currentY + 100 > 500 then 0 else s.currentY + 100) ∧
        (addNode type_ name details s).2.currentX =
          (if s.currentY + 100 > 500 then s.currentX + 250 else s.currentX)) ∧
    initState.currentX = 0 ∧ initState.currentY = 0 ∧
    (["n1", "n2", "n3", "n4", "n5", "n6", "n7"].foldl
        (fun s nm => (addNode "function" nm none s).2) initState).nodes.map
      (fun n => n.position.y) = [0, 100, 200, 300, 400, 500, 0] ∧
    (["n1", "n2", "n3", "n4", "n5", "n6", "n7"].foldl
        (fun s nm => (addNode "function" nm none s).2) initState).nodes.map
      (fun n => n.position.x) = [0, 0, 0, 0, 0, 0, 250] := by
  refine ⟨?_, by decide, by decide, by decide, by decide⟩
  intro s type_ name details h
  refine ⟨?_, ?_, ?_⟩ <;> simp [addNode, h]

/-- C6 witness: the cursor rule applied to the fresh initial state. -/
theorem C6_layout_cursor_witness :
    findVisitedNode initState.visitedNodes "w" "function" = none ∧
    ((addNode "function" "w" none initState).2.nodes.map
        (fun n => (n.position.x, n.position.y)) =
      initState.nodes.map (fun n => (n.position.x, n.position.y)) ++
        [(initState.currentX, initState.currentY)] ∧
     (addNode "function" "w" none initState).2.currentY =
       (if initState.currentY + 100 > 500 then 0 else initState.currentY + 100) ∧
     (addNode "function" "w" none initState).2.currentX =
       (if initState.currentY + 100 > 500 then initState.currentX + 250
        else initState.currentX)) :=
  ⟨by decide, C6_layout_cursor.1 initState "function" "w" none (by decide)⟩

/-- C7: `analyzeHandler` returns `null` exactly when the tree contains no
class declaration, and otherwise its result is fully determined by the
first class declaration in top-down depth-first order — later classes are
never analyzed. -/
theorem C7_first_class_only :
    ∀ (generatedId : String) (sourceFile : Ast),
      (analyzeHandler generatedId sourceFile = none ↔
        containsClassDecl sourceFile = false) ∧
      analyzeHandler generatedId sourceFile =
        (firstClassDecl sourceFile).map
          (fun cls => [mkHandlerNodeFromClass generatedId cls]) :=
  fun generatedId sourceFile =>
    ⟨analyzeHandler_none_iff generatedId sourceFile,
     analyzeHandler_eq_firstClassDecl generatedId sourceFile⟩

/-- C8: the claim says `analyzeMethodComplexity` returns normally for
every method declaration, including one without a body.  The code runs
`visit(node.body!)`; for a bodyless method (overload signature, abstract
method) the non-null assertion is violated and the first `node.kind`
access throws a `TypeError` (modelled as `none`), while every method with
a body is analyzed normally. -/
theorem C8_complexity_bodyless_throws :
    analyzeMethodComplexity (.methodDecl "process" [] none) = none ∧
    (∀ (name : String) (modifiers : List String) (body : Ast),
        (analyzeMethodComplexity
          (.methodDecl name modifiers (some body))).isSome = true) :=
  ⟨rfl, fun _ _ _ => rfl⟩

/-- C9 counterexample: the claim says two invocations on equal inputs
produce equal outputs.  `analyzeHandler` stamps the returned node with a
fresh `crypto.randomUUID()` (the explicit `generatedId` argument of the
embedding), so two invocations on the same one-class tree differ in the
id field. -/
theorem C9_counterexample :
    analyzeHandler "uuid-1" (.classDecl (some "A") [] []) ≠
      analyzeHandler "uuid-2" (.classDecl (some "A") [] []) := by decide

/-- C9 (amended): `analyze` is a pure function of the input AST — every
per-instance field is reset on entry, so the result is independent of the
instance's previous state — and `analyzeHandler` is deterministic in the
input AST except for the returned node's randomly generated id: after
dropping the id field, two invocations agree on all outputs. -/
theorem C9_determinism :
    (∀ (prev1 prev2 : AnalyzerState) (sourceFile : Ast),
        analyze prev1 sourceFile = analyze prev2 sourceFile) ∧
    (∀ (id1 id2 : String) (sourceFile : Ast),
        (analyzeHandler id1 sourceFile).map (fun l => l.map handlerNodeNoId) =
          (analyzeHandler id2 sourceFile).map (fun l => l.map handlerNodeNoId)) := by
  constructor
  · intro prev1 prev2 sourceFile
    rfl
  · intro id1 id2 sourceFile
    rw [analyzeHandler_eq_firstClassDecl id1, analyzeHandler_eq_firstClassDecl id2]
    cases h : firstClassDecl sourceFile with
    | none => rfl
    | some cls =>
      simp only [Option.map_some', List.map, Option.some.injEq, List.cons.injEq,
        and_true]
      cases cls <;> rfl

/-- C10: when the first class declaration found by `analyzeHandler` is
unnamed, the returned descriptor's handler name is the empty string, not
`"anonymous"`. -/
theorem C10_unnamed_class_empty_handler :
    ∀ (generatedId : String) (sourceFile cls : Ast),
      firstClassDecl sourceFile = some cls →
      classDeclName cls = none →
      (analyzeHandler generatedId sourceFile).map
          (fun l => l.map (fun n => n.data.handler)) = some [""] := by
  intro generatedId sourceFile cls hfind hname
  have hp : isClassDeclNode cls = true := List.find?_some hfind
  rw [analyzeHandler_eq_firstClassDecl, hfind]
  cases cls with
  | classDecl name heritage members =>
    simp only [classDeclName] at hname
    subst hname
    simp [mkHandlerNodeFromClass, mkHandlerNode, buildHandlerData]
  | functionDecl name params retType body => simp [isClassDeclNode] at hp
  | methodDecl name modifiers body => simp [isClassDeclNode] at hp
  | ctorDecl params body => simp [isClassDeclNode] at hp
  | interfaceDecl name heritage => simp [isClassDeclNode] at hp
  | callExpr calleeText args => simp [isClassDeclNode] at hp
  | ifStmt children => simp [isClassDeclNode] at hp
  | forStmt children => simp [isClassDeclNode] at hp
  | whileStmt children => simp [isClassDeclNode] at hp
  | doStmt children => simp [isClassDeclNode] at hp
  | caseClause children => simp [isClassDeclNode] at hp
  | condExpr children => simp [isClassDeclNode] at hp
  | block children => simp [isClassDeclNode] at hp
  | stmt children => simp [isClassDeclNode] at hp
  | other children => simp [isClassDeclNode] at hp

/-- C10 witness: a source file whose only (and hence first) class
declaration is unnamed yields handler name `""`. -/
theorem C10_unnamed_class_empty_handler_witness :
    firstClassDecl (.other [.classDecl none [] []]) =
      some (.classDecl none [] []) ∧
    classDeclName (.classDecl none [] []) = none ∧
    (analyzeHandler "uuid-1" (.other [.classDecl none [] []])).map
        (fun l => l.map (fun n => n.data.handler)) = some [""] :=
  ⟨rfl, rfl,
   C10_unnamed_class_empty_handler "uuid-1" (.other [.classDecl none [] []])
     (.classDecl none [] []) rfl rfl⟩
